import Mathlib

/-!
# Verification of the streaming-engine core (`src/base/BaseStream.ts`)

A shallow embedding of the queue, configuration-validation, retry and
health logic of the `BaseStream` abstract class, together with theorems
settling the specification claims about it.

Conventions of the embedding:
* TypeScript `number` is embedded as `ℚ` (exact; the code performs only
  comparisons on it), counters as `ℕ`, process exit codes as `ℤ`.
* The mutable instance state of `BaseStream` is the `Engine` structure;
  each method becomes a function from `Engine` to `Engine` (possibly
  paired with a return value, a thrown error as `Option String`, or a
  trace of externally visible `Event`s).
* `existsSync` is abstracted as an oracle `fs : String → Bool`; WHATWG
  URL parsing is embedded for the scheme-extraction part the code uses
  (`new URL(path)` followed by reading `url.protocol`).
-/

namespace Streamer

/-- `VideoSource.type` values: the `'file' | 'url' | 'stream'` union. -/
inductive SourceType where
  | file
  | url
  | stream
deriving DecidableEq, Repr, Inhabited

/-- The `VideoSource` interface of `BaseStream.ts`. -/
structure VideoSource where
  path : String
  type : SourceType
  isValid : Bool
deriving DecidableEq, Repr, Inhabited

/-- Characters allowed after the first character of a URL scheme
(ASCII alphanumerics and `+`, `-`, `.`). -/
def schemeChar (c : Char) : Bool :=
  c.isAlphanum || c = '+' || c = '-' || c = '.'

/-- The scheme-extraction part of `new URL(path)` followed by reading
`url.protocol`: if the string starts with a well-formed scheme followed by
a colon, returns the lowercased scheme with the trailing colon (as the
`protocol` property does); otherwise parsing fails and `none` is
returned (the code catches the exception and answers `false`). -/
def urlProtocol (s : String) : Option String :=
  let l := s.toList
  let pre := l.takeWhile (fun c => c ≠ ':')
  if pre.length < l.length ∧ pre ≠ [] ∧
      (pre.headI.isAlpha) ∧ pre.all schemeChar then
    some (String.mk (pre.map Char.toLower) ++ ":")
  else none

/-- `isUrl` of `BaseStream.ts`: the parsed protocol must be one of
`http:`, `https:`, `rtmp:`, `rtmps:`. -/
def isUrl (s : String) : Bool :=
  match urlProtocol s with
  | some p => ["http:", "https:", "rtmp:", "rtmps:"].contains p
  | none => false

/-- JavaScript `String.prototype.includes`: `tok` occurs as a contiguous
substring of `s`. -/
def containsTok (s tok : String) : Bool :=
  (s.toList.tails).any (fun t => tok.toList.isPrefixOf t)

/-- `analyzeVideoSource` of `BaseStream.ts`, with `existsSync` abstracted
as the oracle `fs`. URLs are always marked valid; a file is valid iff it
exists; a URL containing `.m3u8` or `rtmp` is a `stream`, other URLs are
`url`, everything else is a `file`. -/
def analyzeVideoSource (fs : String → Bool) (source : String) : VideoSource :=
  let u := isUrl source
  let type : SourceType :=
    if u then
      (if containsTok source ".m3u8" || containsTok source "rtmp" then .stream else .url)
    else .file
  let isValid : Bool := if u then true else fs source
  { path := source, type := type, isValid := isValid }

/-- `Required<StreamConfig>`: the fully resolved engine configuration. -/
structure StreamConfig where
  resolution : String
  framerate : ℚ
  videoBitrate : String
  audioBitrate : String
  videoCodec : String
  audioCodec : String
deriving DecidableEq, Repr

/-- `Partial<StreamConfig>`: an update/construction argument where every
field is optional. -/
structure ConfigPatch where
  resolution : Option String := none
  framerate : Option ℚ := none
  videoBitrate : Option String := none
  audioBitrate : Option String := none
  videoCodec : Option String := none
  audioCodec : Option String := none
deriving DecidableEq, Repr

/-- `DEFAULT_CONFIG` of `BaseStream.ts`. -/
def DEFAULT_CONFIG : StreamConfig :=
  { resolution := "1080x1920"
    framerate := 30
    videoBitrate := "2500k"
    audioBitrate := "128k"
    videoCodec := "libx264"
    audioCodec := "aac" }

/-- Object spread / `Object.assign`: each field present in the patch
overwrites the corresponding field of `c`. -/
def mergeConfig (c : StreamConfig) (p : ConfigPatch) : StreamConfig :=
  { resolution := p.resolution.getD c.resolution
    framerate := p.framerate.getD c.framerate
    videoBitrate := p.videoBitrate.getD c.videoBitrate
    audioBitrate := p.audioBitrate.getD c.audioBitrate
    videoCodec := p.videoCodec.getD c.videoCodec
    audioCodec := p.audioCodec.getD c.audioCodec }

/-- The regex test `/^\d+x\d+$/.test s`: one or more digits, the letter
`x`, one or more digits. Since a digit run cannot contain `x`, the
greedy match succeeds iff the maximal leading digit run is nonempty and
is followed by `x` and then a nonempty digit run reaching the end of the
string; the remainder after the digit run is decomposed via
`headI`/`tail` (the spec-side existential formulation is proved
equivalent in `resolutionOk_iff`). -/
def resolutionOk (s : String) : Bool :=
  decide (s.toList.takeWhile Char.isDigit ≠ []) &&
  decide (s.toList.dropWhile Char.isDigit ≠ []) &&
  decide ((s.toList.dropWhile Char.isDigit).headI = 'x') &&
  decide ((s.toList.dropWhile Char.isDigit).tail ≠ []) &&
  (s.toList.dropWhile Char.isDigit).tail.all Char.isDigit

/-- The regex test `/^\d+k$/.test s`: one or more digits followed by a
single `k`. -/
def bitrateOk (s : String) : Bool :=
  decide (s.toList.takeWhile Char.isDigit ≠ []) &&
  decide (s.toList.dropWhile Char.isDigit = ['k'])

/-- `validateConfig` of `BaseStream.ts` as a function of the
configuration: returns `some message` when the method throws and `none`
when it returns normally, preserving the order of the four checks. -/
def validateConfig (c : StreamConfig) : Option String :=
  if ¬ resolutionOk c.resolution then
    some ("Invalid resolution format: " ++ c.resolution ++ ". Expected format: 1920x1080")
  else if c.framerate ≤ 0 ∨ c.framerate > 120 then
    some "Invalid framerate. Must be between 1-120"
  else if ¬ bitrateOk c.videoBitrate then
    some ("Invalid video bitrate format: " ++ c.videoBitrate ++ ". Expected format: 2500k")
  else if ¬ bitrateOk c.audioBitrate then
    some ("Invalid audio bitrate format: " ++ c.audioBitrate ++ ". Expected format: 128k")
  else none

/-- `MAX_RETRY_ATTEMPTS` of `BaseStream.ts`. -/
def MAX_RETRY_ATTEMPTS : Nat := 3

/-- `placeholderPath` of `BaseStream.ts`. -/
def placeholderPath : String := "tmp/placeholder.mp4"

/-- The mutable instance state of a `BaseStream` object. -/
structure Engine where
  videoQueue : List VideoSource
  videoQueueTemp : List VideoSource
  isActive : Bool
  isLoop : Bool
  currentFile : Option String
  totalStreamed : Nat
  retryCount : Nat
  startTime : Nat
  config : StreamConfig
deriving DecidableEq, Repr

/-- A freshly constructed engine with the default configuration: both
queues empty, inactive, no loop, nothing streamed. -/
def emptyEngine : Engine :=
  { videoQueue := []
    videoQueueTemp := []
    isActive := false
    isLoop := false
    currentFile := none
    totalStreamed := 0
    retryCount := 0
    startTime := 0
    config := DEFAULT_CONFIG }

/-- A concrete valid file source used in concrete scenarios. -/
def sampleA : VideoSource := ⟨"a.mp4", .file, true⟩

/-- A second concrete valid file source used in concrete scenarios. -/
def sampleB : VideoSource := ⟨"b.mp4", .file, true⟩

/-- The mid-cycle scenario state: persistent queue `[A,B]`, active
list `[B]` (A already consumed), looping off. -/
def midCycle : Engine :=
  { emptyEngine with videoQueue := [sampleA, sampleB], videoQueueTemp := [sampleB] }

/-- The mid-cycle scenario state with looping on. -/
def midCycleLoop : Engine := { midCycle with isLoop := true }

/-- The `BaseStream` constructor: resolve the patch against
`DEFAULT_CONFIG`, then validate; a validation failure is thrown before
the object becomes usable. -/
def construct (p : ConfigPatch) : Except String Engine :=
  let c := mergeConfig DEFAULT_CONFIG p
  match validateConfig c with
  | some e => .error e
  | none => .ok { emptyEngine with config := c }

/-- `updateConfig` of `BaseStream.ts`: `Object.assign(this.config,
newConfig)` runs first, then `validateConfig()`; the returned `Option
String` is the error thrown by validation (if any), and the returned
engine is the state after the call, error or not. -/
def updateConfig (s : Engine) (newConfig : ConfigPatch) : Engine × Option String :=
  let s1 := { s with config := mergeConfig s.config newConfig }
  (s1, validateConfig s1.config)

/-- `getConfig` returns `{ ...this.config }`, a freshly allocated shallow
copy. To reason about aliasing we model a heap of configuration objects
as a list; references are indices into it. -/
def getConfigAlloc (heap : List StreamConfig) (engineRef : Nat) :
    List StreamConfig × Nat :=
  (heap ++ [heap.getD engineRef DEFAULT_CONFIG], heap.length)

/-- Mutation of the configuration object behind reference `r`
(e.g. `obj.framerate = 999`): the field update `f` is applied in place. -/
def writeConfig (heap : List StreamConfig) (r : Nat) (f : StreamConfig → StreamConfig) :
    List StreamConfig :=
  heap.set r (f (heap.getD r DEFAULT_CONFIG))

/-- `addToQueue` of `BaseStream.ts`: drop paths already present in the
persistent queue, classify the rest, keep only valid sources, and append
them; if nothing valid remains the method only logs a warning. -/
def addToQueue (fs : String → Bool) (s : Engine) (videoPaths : List String) : Engine :=
  let newSources :=
    ((videoPaths.filter
        (fun p => !(s.videoQueue.any (fun src => src.path == p)))).map
      (analyzeVideoSource fs)).filter (fun src => src.isValid)
  if newSources.isEmpty then s
  else { s with videoQueue := s.videoQueue ++ newSources }

/-- `removeFromQueue` of `BaseStream.ts`: bounds-checked
`splice(index, 1)` on the persistent queue; returns whether an element
was removed. -/
def removeFromQueue (s : Engine) (index : Int) : Engine × Bool :=
  if index < 0 ∨ (s.videoQueue.length : Int) ≤ index then (s, false)
  else ({ s with videoQueue := s.videoQueue.eraseIdx index.toNat }, true)

/-- `clearQueue` of `BaseStream.ts`: truncates both the persistent queue
and the active playback list to length 0. -/
def clearQueue (s : Engine) : Engine :=
  { s with videoQueue := [], videoQueueTemp := [] }

/-- `setLoop` of `BaseStream.ts`. -/
def setLoop (s : Engine) (loop : Bool) : Engine :=
  { s with isLoop := loop }

/-- `getNextVideo` of `BaseStream.ts`: shift the head of the active list
(incrementing `totalStreamed`); when it is empty and looping is on and
the persistent queue is nonempty, refill the active list from the
persistent queue, reset `totalStreamed` to 0 and recurse; otherwise
return the placeholder path. -/
def getNextVideo (s : Engine) : String × Engine :=
  if h : s.videoQueueTemp ≠ [] then
    let nextVideo := s.videoQueueTemp.head h
    (nextVideo.path,
      { s with videoQueueTemp := s.videoQueueTemp.tail,
               totalStreamed := s.totalStreamed + 1 })
  else if _h2 : s.isLoop = true ∧ s.videoQueue ≠ [] then
    getNextVideo { s with videoQueueTemp := s.videoQueue, totalStreamed := 0 }
  else
    (placeholderPath, s)
termination_by (if s.videoQueueTemp.isEmpty then 1 else 0)
decreasing_by
  simp_all [List.isEmpty_iff]

/-- Health values of the `StreamStatus` interface. -/
inductive Health where
  | healthy
  | warning
  | error
deriving DecidableEq, Repr

/-- `determineHealth` of `BaseStream.ts`. -/
def determineHealth (s : Engine) : Health :=
  if s.isActive = false then .error
  else if s.retryCount > 1 then .warning
  else .healthy

/-- The `StreamStatus` interface. -/
structure StreamStatus where
  isStreaming : Bool
  currentFile : Option String
  queueCount : Nat
  totalStreamed : Nat
  uptime : Nat
  health : Health
deriving DecidableEq, Repr

/-- `getStatus` of `BaseStream.ts`, with `Date.now()` passed in as
`now`. -/
def getStatus (s : Engine) (now : Nat) : StreamStatus :=
  { isStreaming := s.isActive
    currentFile := s.currentFile
    queueCount := s.videoQueue.length
    totalStreamed := s.totalStreamed
    uptime := if s.isActive then now - s.startTime else 0
    health := determineHealth s }

/-- Externally visible effects of a continuation step of the playback
loop: the `setTimeout` backoff delay inside `handleStreamError`, the
`setTimeout(1000)` pause inside `streamNext`, a `getNextVideo`
consultation of the queue, and a `Bun.spawn` of the external process. -/
inductive Event where
  | retryDelay (ms : Nat)
  | interDelay (ms : Nat)
  | next (path : String)
  | spawn (path : String)
deriving DecidableEq, Repr

/-- `stop` of `BaseStream.ts` (state effect): a warning-only no-op when
inactive; otherwise clears the active flag, kills the process, and
resets `currentFile` and `retryCount`. -/
def stop (s : Engine) : Engine :=
  if s.isActive = false then s
  else { s with isActive := false, currentFile := none, retryCount := 0 }

/-- `streamNext` followed by the non-throwing part of `streamVideo`:
abort silently when `isActive` is false; otherwise wait 1 s, take the
next video from the queue, record it as `currentFile`, and spawn the
process. The step ends at the `await` of process exit. -/
def streamNext (s : Engine) : Engine × List Event :=
  if s.isActive = false then (s, [])
  else
    let r := getNextVideo s
    ({ r.2 with currentFile := some r.1 },
      [.interDelay 1000, .next r.1, .spawn r.1])

/-- `handleStreamError` of `BaseStream.ts`: increment `retryCount`; if
still within `MAX_RETRY_ATTEMPTS`, wait `2000 * retryCount` ms and
continue with `streamNext`; otherwise force a full `stop()` (without
throwing). -/
def handleStreamError (s : Engine) : Engine × List Event :=
  let s1 := { s with retryCount := s.retryCount + 1 }
  if s1.retryCount ≤ MAX_RETRY_ATTEMPTS then
    let r := streamNext s1
    (r.1, .retryDelay (2000 * s1.retryCount) :: r.2)
  else (stop s1, [])

/-- The three ways a playback attempt can come back to the engine: the
process exited with a code, awaiting the exit threw, or `Bun.spawn`
itself threw (the `catch` in `streamVideo`). -/
inductive ProcOutcome where
  | exited (code : Int)
  | exitWaitError
  | spawnException
deriving DecidableEq, Repr

/-- The continuation run when a playback attempt completes: the body of
`handleStreamProcess` after `await exited` (guarded by `isActive`; exit
code 0 or 255 resets `retryCount` and advances, anything else goes to
the retry machine), its `catch`, and the `catch` in `streamVideo` for a
spawn failure. -/
def handleProcessExit (s : Engine) (o : ProcOutcome) : Engine × List Event :=
  match o with
  | .exited code =>
    if s.isActive = true then
      if code = 0 ∨ code = 255 then
        streamNext { s with retryCount := 0 }
      else
        handleStreamError s
    else (s, [])
  | .exitWaitError => handleStreamError s
  | .spawnException => handleStreamError s

/-- Iterate `handleProcessExit` over a sequence of observed process
outcomes, concatenating the event traces. -/
def runOutcomes (s : Engine) : List ProcOutcome → Engine × List Event
  | [] => (s, [])
  | o :: rest =>
    let r := handleProcessExit s o
    let r2 := runOutcomes r.1 rest
    (r2.1, r.2 ++ r2.2)

/-- Iterate `getNextVideo` `n` times, collecting the returned paths. -/
def iterateNext : Engine → Nat → List String × Engine
  | s, 0 => ([], s)
  | s, n + 1 =>
    let r := getNextVideo s
    let r2 := iterateNext r.2 n
    (r.1 :: r2.1, r2.2)

/-- The externally callable queue mutations. -/
inductive QueueOp where
  | add (paths : List String)
  | remove (index : Int)
  | clear
deriving DecidableEq, Repr

/-- Apply one queue mutation. -/
def applyQueueOp (fs : String → Bool) (s : Engine) : QueueOp → Engine
  | .add ps => addToQueue fs s ps
  | .remove i => (removeFromQueue s i).1
  | .clear => clearQueue s

/-- Apply a sequence of queue mutations. -/
def runQueueOps (fs : String → Bool) (s : Engine) : List QueueOp → Engine
  | [] => s
  | op :: rest => runQueueOps fs (applyQueueOp fs s op) rest

/-- The persistent-queue invariant claimed by the spec: every stored
source was classified valid, and paths are pairwise distinct. -/
def QueueInv (q : List VideoSource) : Prop :=
  (∀ v ∈ q, v.isValid = true) ∧ (q.map VideoSource.path).Nodup

instance (q : List VideoSource) : Decidable (QueueInv q) := by
  unfold QueueInv; infer_instance

/-! ## Unfolding lemmas for `getNextVideo` -/

theorem getNextVideo_cons (s : Engine) (v : VideoSource) (rest : List VideoSource)
    (h : s.videoQueueTemp = v :: rest) :
    getNextVideo s =
      (v.path, { s with videoQueueTemp := rest, totalStreamed := s.totalStreamed + 1 }) := by
  rw [getNextVideo]
  simp [h]

theorem getNextVideo_shift (s : Engine) (h : s.videoQueueTemp ≠ []) :
    getNextVideo s =
      (s.videoQueueTemp.headI.path,
        { s with videoQueueTemp := s.videoQueueTemp.tail,
                 totalStreamed := s.totalStreamed + 1 }) := by
  obtain ⟨v, rest, hv⟩ := List.exists_cons_of_ne_nil h
  rw [getNextVideo_cons s v rest hv]
  simp [hv]

theorem getNextVideo_refill (s : Engine) (h : s.videoQueueTemp = [])
    (hl : s.isLoop = true) (hq : s.videoQueue ≠ []) :
    getNextVideo s =
      getNextVideo { s with videoQueueTemp := s.videoQueue, totalStreamed := 0 } := by
  conv_lhs => rw [getNextVideo]
  simp [h, hl, hq]

theorem getNextVideo_placeholder (s : Engine) (h : s.videoQueueTemp = [])
    (h2 : ¬ (s.isLoop = true ∧ s.videoQueue ≠ [])) :
    getNextVideo s = (placeholderPath, s) := by
  rw [getNextVideo]
  simp only [h]
  simp [h2]

theorem getNextVideo_preserves (s : Engine) :
    (getNextVideo s).2.isActive = s.isActive ∧
    (getNextVideo s).2.retryCount = s.retryCount ∧
    (getNextVideo s).2.videoQueue = s.videoQueue ∧
    (getNextVideo s).2.isLoop = s.isLoop ∧
    (getNextVideo s).2.currentFile = s.currentFile ∧
    (getNextVideo s).2.config = s.config ∧
    (getNextVideo s).2.startTime = s.startTime := by
  rcases htemp : s.videoQueueTemp with _ | ⟨v, rest⟩
  · by_cases hl : s.isLoop = true ∧ s.videoQueue ≠ []
    · rw [getNextVideo_refill s htemp hl.1 hl.2]
      obtain ⟨w, qrest, hw⟩ := List.exists_cons_of_ne_nil hl.2
      rw [getNextVideo_cons _ w qrest (by simp [hw])]
      simp
    · rw [getNextVideo_placeholder s htemp hl]
      simp
  · rw [getNextVideo_cons s v rest htemp]
    simp

/-! ## Characterization of the validation patterns -/

theorem takeWhile_dropWhile_append (p : Char → Bool) (w : List Char) (x : Char)
    (t : List Char) (hw : ∀ c ∈ w, p c = true) (hx : p x = false) :
    (w ++ x :: t).takeWhile p = w ∧ (w ++ x :: t).dropWhile p = x :: t := by
  induction w with
  | nil => simp [List.takeWhile_cons, List.dropWhile_cons, hx]
  | cons a w ih =>
    have ha : p a = true := hw a (by simp)
    have ih' := ih (fun c hc => hw c (by simp [hc]))
    simp [List.takeWhile_cons, List.dropWhile_cons, ha, ih'.1, ih'.2]

/-- The resolution pattern stated by the spec: the string decomposes as
a nonempty digit run, the letter `x`, and a nonempty digit run. -/
def specResolutionPattern (s : String) : Prop :=
  ∃ w t : List Char, w ≠ [] ∧ t ≠ [] ∧ (∀ c ∈ w, c.isDigit = true) ∧
    (∀ c ∈ t, c.isDigit = true) ∧ s.toList = w ++ 'x' :: t

/-- The bitrate pattern stated by the spec: a nonempty digit run
followed by a single `k`. -/
def specBitratePattern (s : String) : Prop :=
  ∃ d : List Char, d ≠ [] ∧ (∀ c ∈ d, c.isDigit = true) ∧ s.toList = d ++ ['k']

theorem mem_takeWhile_digit {l : List Char} {c : Char}
    (h : c ∈ l.takeWhile Char.isDigit) : c.isDigit = true := by
  induction l with
  | nil => simp [List.takeWhile] at h
  | cons a l ih =>
    rw [List.takeWhile_cons] at h
    by_cases ha : a.isDigit = true
    · rw [if_pos ha] at h
      rcases List.mem_cons.mp h with rfl | h
      · exact ha
      · exact ih h
    · rw [if_neg ha] at h
      simp at h

theorem resolutionOk_iff (s : String) :
    resolutionOk s = true ↔ specResolutionPattern s := by
  constructor
  · intro hok
    unfold resolutionOk at hok
    simp only [Bool.and_eq_true, decide_eq_true_eq] at hok
    obtain ⟨⟨⟨⟨h1, h2⟩, h3⟩, h4⟩, h5⟩ := hok
    obtain ⟨c, t, hct⟩ := List.exists_cons_of_ne_nil h2
    rw [hct] at h3 h4 h5
    simp only [List.headI_cons, List.tail_cons] at h3 h4 h5
    subst h3
    refine ⟨s.toList.takeWhile Char.isDigit, t, h1, h4,
      fun c hc => mem_takeWhile_digit hc, fun c hc => List.all_eq_true.mp h5 c hc, ?_⟩
    conv_lhs => rw [← List.takeWhile_append_dropWhile (p := Char.isDigit) (l := s.toList)]
    rw [hct]
  · rintro ⟨w, t, hw, ht, hwd, htd, hs⟩
    have hx : ('x').isDigit = false := by decide
    have hsplit := takeWhile_dropWhile_append Char.isDigit w 'x' t hwd hx
    unfold resolutionOk
    rw [hs, hsplit.1, hsplit.2]
    simp [hw, ht, List.all_eq_true]
    exact htd

theorem bitrateOk_iff (s : String) :
    bitrateOk s = true ↔ specBitratePattern s := by
  constructor
  · intro hok
    unfold bitrateOk at hok
    simp only [Bool.and_eq_true, decide_eq_true_eq] at hok
    refine ⟨s.toList.takeWhile Char.isDigit, hok.1,
      fun c hc => mem_takeWhile_digit hc, ?_⟩
    conv_lhs => rw [← List.takeWhile_append_dropWhile (p := Char.isDigit) (l := s.toList)]
    rw [hok.2]
  · rintro ⟨d, hd, hdd, hs⟩
    have hk : ('k').isDigit = false := by decide
    have hsplit := takeWhile_dropWhile_append Char.isDigit d 'k' [] hdd hk
    unfold bitrateOk
    rw [hs, hsplit.1, hsplit.2]
    simp [hd]

theorem validateConfig_eq_none_iff (c : StreamConfig) :
    validateConfig c = none ↔
      (resolutionOk c.resolution = true ∧ 0 < c.framerate ∧ c.framerate ≤ 120 ∧
       bitrateOk c.videoBitrate = true ∧ bitrateOk c.audioBitrate = true) := by
  unfold validateConfig
  split_ifs with h1 h2 h3 h4
  · refine (false_iff _).mpr ?_
    rintro ⟨-, hf1, hf2, -, -⟩
    rcases h2 with h | h
    · exact absurd hf1 (not_lt.mpr h)
    · exact absurd hf2 (not_le.mpr h)
  · push_neg at h2
    exact iff_of_true rfl ⟨h1, h2.1, h2.2, h3, h4⟩
  · refine (false_iff _).mpr ?_
    rintro ⟨-, -, -, -, hb⟩
    exact h4 hb
  · refine (false_iff _).mpr ?_
    rintro ⟨-, -, -, hb, -⟩
    exact h3 hb
  · refine (false_iff _).mpr ?_
    rintro ⟨hb, -, -, -, -⟩
    exact h1 hb

/-! ## Claim C5 -/

/-- C5 (amended). Configuration validation: a configuration is accepted
(no error from `validateConfig`, hence none thrown at construction or
update) iff the resolution matches the `WIDTHxHEIGHT` digit pattern,
the framerate is a number with `0 < framerate ≤ 120` (integrality is
NOT checked — see the counterexample), and both bitrates match the
digits-plus-`k` pattern; in particular framerate `0` and `121` are
rejected, `1` and `120` accepted, bitrate `"2500"` rejected and
`"2500k"` accepted. -/
theorem claim_C5_config_validation :
    (∀ c : StreamConfig,
      validateConfig c = none ↔
        (specResolutionPattern c.resolution ∧ 0 < c.framerate ∧ c.framerate ≤ 120 ∧
         specBitratePattern c.videoBitrate ∧ specBitratePattern c.audioBitrate)) ∧
    (validateConfig { DEFAULT_CONFIG with framerate := 0 }).isSome = true ∧
    (validateConfig { DEFAULT_CONFIG with framerate := 121 }).isSome = true ∧
    validateConfig { DEFAULT_CONFIG with framerate := 1 } = none ∧
    validateConfig { DEFAULT_CONFIG with framerate := 120 } = none ∧
    (validateConfig { DEFAULT_CONFIG with videoBitrate := "2500" }).isSome = true ∧
    validateConfig { DEFAULT_CONFIG with videoBitrate := "2500k" } = none := by
  refine ⟨fun c => ?_, by decide, by decide, by decide, by decide, by decide, by decide⟩
  rw [validateConfig_eq_none_iff, resolutionOk_iff, bitrateOk_iff, bitrateOk_iff]

/-- Witness for C5: the default configuration is accepted, so it
satisfies all the spec-side patterns. -/
theorem claim_C5_config_validation_witness :
    specResolutionPattern DEFAULT_CONFIG.resolution ∧
    0 < DEFAULT_CONFIG.framerate ∧ DEFAULT_CONFIG.framerate ≤ 120 ∧
    specBitratePattern DEFAULT_CONFIG.videoBitrate ∧
    specBitratePattern DEFAULT_CONFIG.audioBitrate :=
  (claim_C5_config_validation.1 DEFAULT_CONFIG).mp (by decide)

/-- Counterexample to C5 as frozen: the configuration whose framerate is
`1/2` (all other fields default) is accepted by `validateConfig`, yet
`1/2` is not an integer in `[1,120]` — the code checks only
`0 < framerate ≤ 120` and never integrality. -/
theorem claim_C5_counterexample :
    validateConfig { DEFAULT_CONFIG with framerate := 1/2 } = none ∧
    ¬ ∃ n : ℤ, ((1 : ℚ)/2 = (n : ℚ) ∧ 1 ≤ n ∧ n ≤ 120) := by
  constructor
  · rw [validateConfig_eq_none_iff]
    refine ⟨by decide, by norm_num [DEFAULT_CONFIG], by norm_num [DEFAULT_CONFIG],
      by decide, by decide⟩
  · rintro ⟨n, hn, h1, -⟩
    have hq : (1 : ℚ) ≤ (n : ℚ) := by exact_mod_cast h1
    rw [← hn] at hq
    norm_num at hq

/-! ## Claim C1 -/

/-- Counterexample to C1 as frozen: updating the default (valid)
configuration with framerate `0` produces an invalid merge, so
`updateConfig` raises the synchronous error — but the engine's
configuration does NOT stay as it was: `Object.assign` ran before
validation, so the stored framerate is now `0`, not the prior `30`. -/
theorem claim_C1_counterexample :
    ((updateConfig emptyEngine { framerate := some 0 }).2).isSome = true ∧
    (updateConfig emptyEngine { framerate := some 0 }).1.config.framerate = 0 ∧
    emptyEngine.config.framerate = 30 := by
  decide

/-- C1 (amended). `updateConfig` merges the partial configuration into
the stored one first and validates afterwards: the resulting
configuration is always the full merge (every supplied field lands,
whether or not the result is valid), the synchronous error is raised
exactly when the merged configuration is invalid, and on error the
merged (invalid) configuration is retained rather than rolled back;
the rest of the engine state is untouched. -/
theorem claim_C1_update_not_atomic :
    ∀ (s : Engine) (p : ConfigPatch),
      (updateConfig s p).1.config = mergeConfig s.config p ∧
      ((updateConfig s p).2 = none ↔ validateConfig (mergeConfig s.config p) = none) ∧
      (updateConfig s p).1.videoQueue = s.videoQueue ∧
      (updateConfig s p).1.videoQueueTemp = s.videoQueueTemp ∧
      (updateConfig s p).1.isActive = s.isActive ∧
      (updateConfig s p).1.retryCount = s.retryCount := by
  intro s p
  simp [updateConfig]

/-! ## Claim C3 -/

/-- C3. `next()` semantics: with looping enabled and persistent queue
`[A,B]` (active list empty or freshly seeded), four successive
`getNextVideo` calls return `A,B,A,B`, each refill copying the current
persistent queue and resetting `totalStreamed` to zero (so it is `1`
right after the refill hands out `A`); with looping disabled and
persistent queue `[A]` (seeded), two calls return `A` then the
placeholder; whenever the active list is empty and looping is disabled
or the persistent queue is empty, `getNextVideo` returns the placeholder
path and leaves the state unchanged. -/
theorem claim_C3_next_semantics :
    (∀ A B : VideoSource,
      (iterateNext { emptyEngine with isLoop := true, videoQueue := [A, B] } 4).1
        = [A.path, B.path, A.path, B.path] ∧
      (iterateNext
          { emptyEngine with
              isLoop := true, videoQueue := [A, B], videoQueueTemp := [A, B] } 4).1
        = [A.path, B.path, A.path, B.path] ∧
      (getNextVideo { emptyEngine with isLoop := true, videoQueue := [A, B] }).2.totalStreamed
        = 1 ∧
      (getNextVideo { emptyEngine with isLoop := true, videoQueue := [A, B] }).2.videoQueueTemp
        = [B]) ∧
    (∀ A : VideoSource,
      (iterateNext { emptyEngine with videoQueue := [A], videoQueueTemp := [A] } 2).1
        = [A.path, placeholderPath]) ∧
    (∀ s : Engine, s.videoQueueTemp = [] → s.isLoop = false ∨ s.videoQueue = [] →
      getNextVideo s = (placeholderPath, s)) := by
  refine ⟨fun A B => ?_, fun A => ?_, fun s h1 h2 => ?_⟩
  · simp [iterateNext, emptyEngine, getNextVideo_shift, getNextVideo_refill]
  · simp [iterateNext, emptyEngine, getNextVideo_shift, getNextVideo_placeholder]
  · exact getNextVideo_placeholder s h1 (by
      rcases h2 with h | h
      · simp [h]
      · simp [h])

/-- Witness for C3: the third conjunct applied to the fresh engine. -/
theorem claim_C3_next_semantics_witness :
    getNextVideo emptyEngine = (placeholderPath, emptyEngine) :=
  claim_C3_next_semantics.2.2 emptyEngine rfl (Or.inl rfl)

/-! ## Claim C9 -/

/-- C9. Health derivation: the health field of `getStatus` is `error`
iff the engine is not active, `warning` iff it is active with
`retryCount > 1`, and `healthy` iff it is active with `retryCount ≤ 1`;
it is recomputed from the current state (it equals `determineHealth`
applied to the state passed in, whatever that state is). -/
theorem claim_C9_health_derivation :
    ∀ (s : Engine) (now : Nat),
      ((getStatus s now).health = .error ↔ s.isActive = false) ∧
      ((getStatus s now).health = .warning ↔ s.isActive = true ∧ s.retryCount > 1) ∧
      ((getStatus s now).health = .healthy ↔ s.isActive = true ∧ s.retryCount ≤ 1) ∧
      (getStatus s now).health = determineHealth s := by
  intro s now
  rcases hb : s.isActive with _ | _ <;>
    rcases Nat.lt_or_ge 1 s.retryCount with hr | hr <;>
      simp [getStatus, determineHealth, hb, hr, Nat.not_lt.mpr, Nat.lt_of_lt_of_le]

/-! ## Claim C2 -/

theorem addToQueue_queueInv (fs : String → Bool) (s : Engine) (ps : List String)
    (hinv : QueueInv s.videoQueue) (hps : ps.Nodup) :
    QueueInv (addToQueue fs s ps).videoQueue := by
  unfold addToQueue
  by_cases hempty :
      (((ps.filter (fun p => !(s.videoQueue.any (fun src => src.path == p)))).map
        (analyzeVideoSource fs)).filter (fun src => src.isValid)).isEmpty
  · simpa [hempty] using hinv
  · rw [if_neg (by simp [hempty])]
    constructor
    · intro v hv
      rcases List.mem_append.mp hv with h | h
      · exact hinv.1 v h
      · simpa using List.of_mem_filter h
    · rw [List.map_append, List.nodup_append]
      have hfil :
          (ps.filter (fun p => !(s.videoQueue.any (fun src => src.path == p)))).map
              (fun p => (analyzeVideoSource fs p).path)
            = ps.filter (fun p => !(s.videoQueue.any (fun src => src.path == p))) := by
        simp [analyzeVideoSource]
      have hsub :
          ((((ps.filter (fun p => !(s.videoQueue.any (fun src => src.path == p)))).map
            (analyzeVideoSource fs)).filter (fun src => src.isValid)).map
              VideoSource.path).Sublist
            (ps.filter (fun p => !(s.videoQueue.any (fun src => src.path == p)))) := by
      -- the valid-filtered list is a sublist of the classified list, and
      -- mapping the path projection over the classified list gives back
      -- the filtered locator list
        have h1 := (List.filter_sublist (l :=
          (ps.filter (fun p => !(s.videoQueue.any (fun src => src.path == p)))).map
            (analyzeVideoSource fs)) (p := fun src => src.isValid)).map VideoSource.path
        rwa [List.map_map, Function.comp_def, hfil] at h1
      refine ⟨hinv.2, hsub.nodup ((List.filter_sublist _).nodup hps), ?_⟩
      intro a ha hb
      have hb' := hsub.subset hb
      have hcond := List.of_mem_filter hb'
      simp only [Bool.not_eq_true'] at hcond
      rw [List.any_eq_false] at hcond
      rcases List.mem_map.mp ha with ⟨src, hsrc, rfl⟩
      have hfalse := hcond src hsrc
      simp at hfalse

theorem removeFromQueue_queueInv (s : Engine) (i : Int)
    (hinv : QueueInv s.videoQueue) :
    QueueInv (removeFromQueue s i).1.videoQueue := by
  unfold removeFromQueue
  split_ifs with h
  · exact hinv
  · refine ⟨fun v hv => hinv.1 v ((s.videoQueue.eraseIdx_sublist i.toNat).subset hv), ?_⟩
    exact ((s.videoQueue.eraseIdx_sublist i.toNat).map VideoSource.path).nodup hinv.2

theorem runQueueOps_queueInv (fs : String → Bool) (ops : List QueueOp) (s : Engine)
    (hinv : QueueInv s.videoQueue)
    (hnodup : ∀ ps, QueueOp.add ps ∈ ops → ps.Nodup) :
    QueueInv (runQueueOps fs s ops).videoQueue := by
  induction ops generalizing s with
  | nil => exact hinv
  | cons op rest ih =>
    have h1 : QueueInv (applyQueueOp fs s op).videoQueue := by
      cases op with
      | add ps => exact addToQueue_queueInv fs s ps hinv (hnodup ps (by simp))
      | remove i => exact removeFromQueue_queueInv s i hinv
      | clear => exact ⟨by simp [applyQueueOp, clearQueue], by simp [applyQueueOp, clearQueue]⟩
    exact ih _ h1 (fun ps hps => hnodup ps (by simp [hps]))

/-- Counterexample to C2 as frozen: a single `addToQueue` call whose
argument repeats the same (valid URL) locator appends it twice — the
dedup filter consults only the persistent queue as it was before the
call, so the queue is no longer unique by locator. -/
theorem claim_C2_counterexample :
    ((addToQueue (fun _ => false) emptyEngine ["http://a/x", "http://a/x"]).videoQueue.map
        VideoSource.path) = ["http://a/x", "http://a/x"] ∧
    ¬ ((addToQueue (fun _ => false) emptyEngine
        ["http://a/x", "http://a/x"]).videoQueue.map VideoSource.path).Nodup := by
  decide

/-- C2 (amended). Persistent-queue invariant: after any sequence of
`addToQueue` / `removeFromQueue` / `clearQueue` operations starting
from an empty engine, the persistent queue contains only sources that
were classified valid, and — provided no single `addToQueue` call
repeats a locator within its own argument list — it is unique by
locator; a locator already present in the queue is deduplicated, so
adding the same locator twice in two separate calls yields it exactly
once (the second call is a no-op). Duplicates inside one call's
argument list are NOT deduplicated (see the counterexample). -/
theorem claim_C2_queue_invariant :
    (∀ (fs : String → Bool) (ops : List QueueOp),
      (∀ ps, QueueOp.add ps ∈ ops → ps.Nodup) →
      QueueInv (runQueueOps fs emptyEngine ops).videoQueue) ∧
    (∀ (fs : String → Bool) (s : Engine) (p : String),
      p ∈ s.videoQueue.map VideoSource.path → addToQueue fs s [p] = s) := by
  constructor
  · intro fs ops h
    exact runQueueOps_queueInv fs ops emptyEngine
      ⟨by simp [emptyEngine], by simp [emptyEngine]⟩ h
  · intro fs s p hp
    unfold addToQueue
    have hany : (s.videoQueue.any (fun src => src.path == p)) = true := by
      rw [List.any_eq_true]
      rcases List.mem_map.mp hp with ⟨src, hsrc, hpath⟩
      exact ⟨src, hsrc, by simp [hpath]⟩
    simp [hany]

/-- Witness for C2: a concrete run (duplicate-free calls, a cross-call
duplicate, a removal) keeps the invariant. -/
theorem claim_C2_queue_invariant_witness :
    QueueInv (runQueueOps (fun _ => true) emptyEngine
      [QueueOp.add ["v1.mp4", "v2.mp4"], QueueOp.add ["v1.mp4"],
       QueueOp.remove 0]).videoQueue :=
  claim_C2_queue_invariant.1 (fun _ => true)
    [QueueOp.add ["v1.mp4", "v2.mp4"], QueueOp.add ["v1.mp4"], QueueOp.remove 0]
    (by
      intro ps hps
      simp only [List.mem_cons, List.not_mem_nil, or_false] at hps
      rcases hps with h | h | h <;> first | (cases h; decide) | (cases h))

/-! ## Claim C7 -/

/-- Counterexample to C7's universal clause ("queue mutations never
alter ... the already-snapshotted remainder of the active list"):
`clearQueue` is a queue mutation, and it empties the active playback
list too — after it, the snapshotted remainder `[B]` is gone and the
next `getNextVideo` returns the placeholder instead of `B`. -/
theorem claim_C7_counterexample :
    (clearQueue midCycle).videoQueueTemp ≠ midCycle.videoQueueTemp ∧
    (getNextVideo (clearQueue midCycle)).1 = placeholderPath ∧
    placeholderPath ≠ sampleB.path := by
  refine ⟨by simp [clearQueue, midCycle, emptyEngine], ?_, by decide⟩
  rw [getNextVideo_placeholder _ (by simp [clearQueue])
    (by simp [clearQueue, midCycle, emptyEngine])]

/-- C7 (amended). Live mutation isolation: with active list `[B]`
remaining (A consumed) from persistent `[A,B]` and looping on,
`removeFromQueue 0` removes `A` from the persistent queue only — the
snapshotted `[B]` is untouched, the next `getNextVideo` still returns
`B`, and the refill after that reflects the persistent queue without
`A` (returning `B` again). In general `addToQueue` and
`removeFromQueue` never alter the active list or the currently playing
source, and `clearQueue` never alters the currently playing source
(though it does empty the active list — see the counterexample). -/
theorem claim_C7_live_mutation_isolation :
    (∀ A B : VideoSource, ∀ s : Engine,
      s.videoQueue = [A, B] → s.videoQueueTemp = [B] → s.isLoop = true →
      ((removeFromQueue s 0).1.videoQueueTemp = [B] ∧
       (removeFromQueue s 0).1.videoQueue = [B] ∧
       (getNextVideo (removeFromQueue s 0).1).1 = B.path ∧
       (getNextVideo (getNextVideo (removeFromQueue s 0).1).2).1 = B.path)) ∧
    (∀ (fs : String → Bool) (s : Engine) (ps : List String) (i : Int),
      (addToQueue fs s ps).videoQueueTemp = s.videoQueueTemp ∧
      (addToQueue fs s ps).currentFile = s.currentFile ∧
      (removeFromQueue s i).1.videoQueueTemp = s.videoQueueTemp ∧
      (removeFromQueue s i).1.currentFile = s.currentFile ∧
      (clearQueue s).currentFile = s.currentFile) := by
  constructor
  · intro A B s hq htemp hloop
    have hrem : (removeFromQueue s 0).1 = { s with videoQueue := [B] } := by
      unfold removeFromQueue
      rw [if_neg (by simp [hq])]
      simp [hq]
    have h1 : getNextVideo (removeFromQueue s 0).1
        = (B.path, { s with videoQueue := [B],
                            videoQueueTemp := [],
                            totalStreamed := s.totalStreamed + 1 }) := by
      rw [hrem, getNextVideo_shift _ (by simp [htemp])]
      simp [htemp]
    have h2 : getNextVideo { s with videoQueue := [B],
                                    videoQueueTemp := [],
                                    totalStreamed := s.totalStreamed + 1 }
        = (B.path, { s with videoQueue := [B],
                            videoQueueTemp := [],
                            totalStreamed := 1 }) := by
      rw [getNextVideo_refill _ (by simp) (by simp [hloop]) (by simp),
        getNextVideo_shift _ (by simp)]
      simp
    refine ⟨by simp [hrem, htemp], by simp [hrem], by rw [h1], ?_⟩
    rw [h1]
    simp [h2]
  · intro fs s ps i
    refine ⟨?_, ?_, ?_, ?_, rfl⟩
    · simp only [addToQueue]
      split <;> rfl
    · simp only [addToQueue]
      split <;> rfl
    · unfold removeFromQueue
      split_ifs <;> rfl
    · unfold removeFromQueue
      split_ifs <;> rfl

/-- Witness for C7: the `remove(0)` scenario at concrete sources. -/
theorem claim_C7_live_mutation_isolation_witness :
    (removeFromQueue midCycleLoop 0).1.videoQueueTemp = [sampleB] ∧
    (removeFromQueue midCycleLoop 0).1.videoQueue = [sampleB] ∧
    (getNextVideo (removeFromQueue midCycleLoop 0).1).1 = sampleB.path ∧
    (getNextVideo (getNextVideo (removeFromQueue midCycleLoop 0).1).2).1
      = sampleB.path :=
  claim_C7_live_mutation_isolation.1 sampleA sampleB midCycleLoop rfl rfl rfl

/-! ## Retry-machine lemmas -/

theorem handleStreamError_retry (s : Engine) (hact : s.isActive = true)
    (h : s.retryCount < MAX_RETRY_ATTEMPTS) :
    handleStreamError s
      = ({ (getNextVideo { s with retryCount := s.retryCount + 1 }).2 with
             currentFile := some (getNextVideo { s with retryCount := s.retryCount + 1 }).1 },
         [.retryDelay (2000 * (s.retryCount + 1)), .interDelay 1000,
          .next (getNextVideo { s with retryCount := s.retryCount + 1 }).1,
          .spawn (getNextVideo { s with retryCount := s.retryCount + 1 }).1]) := by
  simp only [handleStreamError, streamNext]
  rw [if_pos (show ({ s with retryCount := s.retryCount + 1 } : Engine).retryCount
      ≤ MAX_RETRY_ATTEMPTS by simpa using h)]
  rw [if_neg (by simp [hact])]

theorem handleStreamError_stop (s : Engine) (hact : s.isActive = true)
    (h : MAX_RETRY_ATTEMPTS ≤ s.retryCount) :
    handleStreamError s
      = ({ s with isActive := false, currentFile := none, retryCount := 0 }, []) := by
  simp only [handleStreamError, stop]
  rw [if_neg (by simp; omega)]
  rw [if_neg (by simp [hact])]

theorem handleStreamError_inactive (s : Engine) (hina : s.isActive = false) :
    handleStreamError s
      = (if s.retryCount + 1 ≤ MAX_RETRY_ATTEMPTS then
          ({ s with retryCount := s.retryCount + 1 },
            [Event.retryDelay (2000 * (s.retryCount + 1))])
         else ({ s with retryCount := s.retryCount + 1 }, [])) := by
  simp only [handleStreamError, streamNext, stop]
  split_ifs with h1 <;> simp_all

/-! ## Claim C6 -/

/-- C6. Process-outcome classification: while the engine is active, an
observed exit code of 0 or 255 is treated as success — `retryCount` is
reset to 0 and the engine advances via `streamNext`; any other exit
code is handed to `handleStreamError` (the retry machine); an exception
from `Bun.spawn` itself, and an exception while awaiting the exit, are
treated identically — they run exactly `handleStreamError` as well. -/
theorem claim_C6_exit_classification :
    ∀ (s : Engine) (code : Int), s.isActive = true →
      ((code = 0 ∨ code = 255) →
        handleProcessExit s (.exited code) = streamNext { s with retryCount := 0 }) ∧
      (code ≠ 0 → code ≠ 255 →
        handleProcessExit s (.exited code) = handleStreamError s) ∧
      handleProcessExit s .spawnException = handleStreamError s ∧
      handleProcessExit s .exitWaitError = handleStreamError s := by
  intro s code hact
  refine ⟨fun h => ?_, fun h0 h255 => ?_, rfl, rfl⟩
  · simp [handleProcessExit, hact, h]
  · simp [handleProcessExit, hact, h0, h255]

/-- Witness for C6: success and failure classification at a concrete
active engine. -/
theorem claim_C6_exit_classification_witness :
    handleProcessExit { emptyEngine with isActive := true } (.exited 0)
      = streamNext { { emptyEngine with isActive := true } with retryCount := 0 } ∧
    handleProcessExit { emptyEngine with isActive := true } (.exited 1)
      = handleStreamError { emptyEngine with isActive := true } :=
  ⟨(claim_C6_exit_classification { emptyEngine with isActive := true } 0 rfl).1
      (Or.inl rfl),
   (claim_C6_exit_classification { emptyEngine with isActive := true } 1 rfl).2.1
      (by decide) (by decide)⟩

/-! ## Claim C4 -/

/-- C4. Retry state machine: while active, the `n+1`-st consecutive
failure with `n < 3` sets `retryCount` to `n+1`, first waits
`2000·(n+1)` ms (so 2 s, 4 s, 6 s for the three retries), keeps the
engine active and advances to the next source (the step ends in a spawn
of the next dequeued path); when `retryCount` has reached 3, a further
failure forces a full `stop()` — active flag cleared, no event and no
error raised; a success resets `retryCount` to 0. Concretely, four
consecutive failing exits from a fresh active engine produce exactly
the backoff delays 2000, 4000, 6000 and leave the engine stopped. -/
theorem claim_C4_retry_machine :
    (∀ s : Engine, s.isActive = true → s.retryCount < MAX_RETRY_ATTEMPTS →
      ((handleStreamError s).1.retryCount = s.retryCount + 1 ∧
       (handleStreamError s).2.head?
         = some (.retryDelay (2000 * (s.retryCount + 1))) ∧
       (handleStreamError s).1.isActive = true ∧
       (handleStreamError s).2.getLast?
         = some (.spawn (getNextVideo { s with retryCount := s.retryCount + 1 }).1))) ∧
    (∀ s : Engine, s.isActive = true → MAX_RETRY_ATTEMPTS ≤ s.retryCount →
      handleStreamError s
        = ({ s with isActive := false, currentFile := none, retryCount := 0 }, [])) ∧
    (∀ (s : Engine) (code : Int), s.isActive = true → (code = 0 ∨ code = 255) →
      (handleProcessExit s (.exited code)).1.retryCount = 0) ∧
    ((runOutcomes { emptyEngine with isActive := true }
        [.exited 1, .exited 1, .exited 1, .exited 1]).2.filterMap
          (fun e => match e with | Event.retryDelay ms => some ms | _ => none)
        = [2000, 4000, 6000] ∧
     (runOutcomes { emptyEngine with isActive := true }
        [.exited 1, .exited 1, .exited 1, .exited 1]).1.isActive = false) := by
  refine ⟨fun s hact hlt => ?_, fun s hact hge => handleStreamError_stop s hact hge,
    fun s code hact hc => ?_, ?_⟩
  · rw [handleStreamError_retry s hact hlt]
    have hpres := getNextVideo_preserves { s with retryCount := s.retryCount + 1 }
    refine ⟨by simpa using hpres.2.1, rfl, by simpa [hact] using hpres.1, rfl⟩
  · have hstep : handleProcessExit s (.exited code)
        = streamNext { s with retryCount := 0 } := by
      rcases hc with rfl | rfl <;> simp [handleProcessExit, hact]
    rw [hstep]
    simp only [streamNext]
    rw [if_neg (by simp [hact])]
    have hpres := getNextVideo_preserves { s with retryCount := 0 }
    simpa using hpres.2.1
  · constructor <;>
      simp [runOutcomes, handleProcessExit, handleStreamError, streamNext, stop,
        MAX_RETRY_ATTEMPTS, getNextVideo_placeholder, emptyEngine]

/-- Witness for C4: the first failure from a fresh active engine.  -/
theorem claim_C4_retry_machine_witness :
    (handleStreamError { emptyEngine with isActive := true }).1.retryCount = 1 ∧
    (handleStreamError { emptyEngine with isActive := true }).2.head?
      = some (.retryDelay (2000 * 1)) ∧
    (handleStreamError { emptyEngine with isActive := true }).1.isActive = true ∧
    (handleStreamError { emptyEngine with isActive := true }).2.getLast?
      = some (.spawn (getNextVideo { { emptyEngine with isActive := true } with
          retryCount := 1 }).1) :=
  claim_C4_retry_machine.1 { emptyEngine with isActive := true } rfl (by decide)

/-! ## Claim C8 -/

/-- C8. Cancellation guard: once `stop()` has cleared the active flag,
every continuation aborts: `streamNext` returns immediately with no
effect; a process-exit continuation neither dequeues a source nor
spawns a process (its event trace contains no `next` and no `spawn`,
and the queues, current file and inactive flag are unchanged — at most
`retryCount` is incremented and a backoff delay elapses on the
exception paths); no continuation raises an error. -/
theorem claim_C8_cancellation_guard :
    ∀ (s : Engine) (o : ProcOutcome), s.isActive = false →
      (streamNext s = (s, []) ∧
       (∀ e ∈ (handleProcessExit s o).2,
         (∀ p, e ≠ Event.next p) ∧ (∀ p, e ≠ Event.spawn p)) ∧
       (handleProcessExit s o).1.videoQueue = s.videoQueue ∧
       (handleProcessExit s o).1.videoQueueTemp = s.videoQueueTemp ∧
       (handleProcessExit s o).1.currentFile = s.currentFile ∧
       (handleProcessExit s o).1.isActive = false) := by
  intro s o hina
  have hsn : streamNext s = (s, []) := by simp [streamNext, hina]
  have hse := handleStreamError_inactive s hina
  refine ⟨hsn, ?_, ?_, ?_, ?_, ?_⟩ <;>
    cases o <;>
      simp_all [handleProcessExit, hina] <;>
        split_ifs <;>
          simp_all

/-- Witness for C8: a spawn-exception continuation on a stopped engine
stays silent. -/
theorem claim_C8_cancellation_guard_witness :
    streamNext emptyEngine = (emptyEngine, []) ∧
    (∀ e ∈ (handleProcessExit emptyEngine .spawnException).2,
      (∀ p, e ≠ Event.next p) ∧ (∀ p, e ≠ Event.spawn p)) ∧
    (handleProcessExit emptyEngine .spawnException).1.videoQueue
      = emptyEngine.videoQueue ∧
    (handleProcessExit emptyEngine .spawnException).1.videoQueueTemp
      = emptyEngine.videoQueueTemp ∧
    (handleProcessExit emptyEngine .spawnException).1.currentFile
      = emptyEngine.currentFile ∧
    (handleProcessExit emptyEngine .spawnException).1.isActive = false :=
  claim_C8_cancellation_guard emptyEngine .spawnException rfl

/-! ## Claim C10 -/

/-- C10. `getConfig` returns a defensive shallow copy: the reference it
hands out is a fresh allocation (distinct from the engine's own
configuration reference), the copied object initially holds the same
value, and mutating the copy — any field update `f` — leaves the
configuration behind the engine's reference unchanged, so any later
read of the engine's configuration (a later `getConfig`, the next
command build) still sees the original value. -/
theorem claim_C10_getConfig_defensive_copy :
    ∀ (heap : List StreamConfig) (engineRef : Nat) (f : StreamConfig → StreamConfig),
      engineRef < heap.length →
      ((getConfigAlloc heap engineRef).2 ≠ engineRef ∧
       (getConfigAlloc heap engineRef).1.getD (getConfigAlloc heap engineRef).2
          DEFAULT_CONFIG = heap.getD engineRef DEFAULT_CONFIG ∧
       (writeConfig (getConfigAlloc heap engineRef).1 (getConfigAlloc heap engineRef).2
          f).getD engineRef DEFAULT_CONFIG = heap.getD engineRef DEFAULT_CONFIG) := by
  intro heap engineRef f href
  refine ⟨by simp [getConfigAlloc]; omega, ?_, ?_⟩
  · simp only [getConfigAlloc]
    rw [List.getD_eq_getElem?_getD, List.getElem?_append_right (by omega)]
    simp
  · simp only [getConfigAlloc, writeConfig]
    rw [List.getD_eq_getElem?_getD, List.getElem?_set_ne (by omega),
      List.getElem?_append_left href, List.getD_eq_getElem?_getD]

/-- Witness for C10: a one-object heap; overwriting every field of the
copy leaves the engine's configuration as it was. -/
theorem claim_C10_getConfig_defensive_copy_witness :
    (getConfigAlloc [DEFAULT_CONFIG] 0).2 ≠ 0 ∧
    (getConfigAlloc [DEFAULT_CONFIG] 0).1.getD (getConfigAlloc [DEFAULT_CONFIG] 0).2
      DEFAULT_CONFIG = [DEFAULT_CONFIG].getD 0 DEFAULT_CONFIG ∧
    (writeConfig (getConfigAlloc [DEFAULT_CONFIG] 0).1
        (getConfigAlloc [DEFAULT_CONFIG] 0).2
        (fun c => { c with framerate := 999, resolution := "bad" })).getD 0
      DEFAULT_CONFIG = [DEFAULT_CONFIG].getD 0 DEFAULT_CONFIG :=
  claim_C10_getConfig_defensive_copy [DEFAULT_CONFIG] 0
    (fun c => { c with framerate := 999, resolution := "bad" }) (by decide)

end Streamer
